import Mathlib

/-!
# terraform-provider-snowflake: `snowflake/provider.go`

A shallow embedding of the provider's session layer: identifier quoting
(`quoteIdentifier`), the capability probe (`serverVersion`) and the configure
step (`providerConfigure` together with the validators of the provider schema).

Go strings are byte sequences, so a string is a list of bytes.  The delimiter of
an identifier is the byte 0x60.
-/

namespace Snowflake

/-! ## Strings and formatting -/

/-- A Go `string`: an immutable sequence of bytes. -/
abbrev GoString := List UInt8

/-- The bytes of an ASCII literal of the source. -/
def str (s : String) : GoString := s.toList.map (fun c => c.toNat.toUInt8)

/-- The identifier delimiter, the byte 0x60. -/
def backtick : UInt8 := 96

/-- One item of a format string of the source: a run of literal bytes or the verb `%s`. -/
inductive FmtItem where
  | lit (bytes : GoString)
  | verbS
deriving DecidableEq, Repr

/-- The function `fmt.Sprintf` on formats made of literal text and `%s` verbs, with string
operands.  A verb without an operand prints `%!s(MISSING)`, as in Go. -/
def Sprintf : List FmtItem → List GoString → GoString
  | [], _ => []
  | FmtItem.lit bytes :: rest, args => bytes ++ Sprintf rest args
  | FmtItem.verbS :: rest, [] => str "%!s(MISSING)" ++ Sprintf rest []
  | FmtItem.verbS :: rest, a :: args => a ++ Sprintf rest args

/-! ## Identifier quoting -/

/-- A `strings.Replacer` built from single-byte old strings (`byteStringReplacer`): for each
byte, the replacement string if there is one. -/
structure byteStringReplacer where
  replacements : UInt8 → Option GoString

/-- The copy loop of `byteStringReplacer.Replace`: every byte with a replacement is written as
its replacement, every other byte as itself. -/
def byteStringReplacer.copyLoop (r : byteStringReplacer) (buf : GoString) (s : GoString) :
    GoString :=
  s.foldl (fun buf b =>
    match r.replacements b with
    | some n => buf ++ n
    | none => buf ++ [b]) buf

/-- The method `byteStringReplacer.Replace`: the input is returned as it is when no byte has a
replacement, otherwise a fresh buffer is filled by the copy loop. -/
def byteStringReplacer.Replace (r : byteStringReplacer) (s : GoString) : GoString :=
  let anyChanges := s.any (fun b => (r.replacements b).isSome)
  if !anyChanges then s else r.copyLoop [] s

/-- The replacer of the source, `strings.NewReplacer` applied to one delimiter and to two
delimiters. -/
def identQuoteReplacer : byteStringReplacer :=
  { replacements := fun b => if b = backtick then some [backtick, backtick] else none }

/-- The function `quoteIdentifier`: `Sprintf` of delimiter, `%s`, delimiter, applied to the
replaced input. -/
def quoteIdentifier (s : GoString) : GoString :=
  Sprintf [FmtItem.lit [backtick], FmtItem.verbS, FmtItem.lit [backtick]]
    [identQuoteReplacer.Replace s]

/-! ### The specification's reading of quoting and unquoting -/

/-- The escaping as the specification words it: every delimiter is doubled, every other byte is
kept. -/
def escapeSpec (s : GoString) : GoString :=
  s.flatMap (fun b => if b = backtick then [backtick, backtick] else [b])

/-- Replaces each doubled delimiter by a single one, scanning from the left. -/
def undouble : GoString → GoString
  | a :: b :: rest =>
    if a = backtick ∧ b = backtick then backtick :: undouble rest else a :: undouble (b :: rest)
  | s => s

/-- The unquoting of the specification: strip the one leading and the one trailing delimiter,
then replace each doubled delimiter by a single one.  A text that is not delimited has no
unquoting. -/
def unquote (q : GoString) : Option GoString :=
  match q with
  | [] => none
  | a :: rest =>
    if a = backtick ∧ rest.getLast? = some backtick then some (undouble rest.dropLast) else none

/-! ## Errors, results and the collaborators below the session layer -/

/-- A Go `error` value, identified by its message. -/
structure GoError where
  msg : GoString
deriving DecidableEq, Repr

/-- The function `fmt.Errorf`: an error whose message is the formatted text. -/
def Errorf (format : List FmtItem) (args : List GoString) : GoError :=
  { msg := Sprintf format args }

/-- What a Go call of type `(T, error)` does: it returns `(value, nil)`, it returns
`(nil, err)`, or it does not return because of a run-time panic. -/
inductive Result (α : Type) where
  | ok (value : α)
  | error (err : GoError)
  | panic
deriving DecidableEq, Repr

/-- A parsed version of the `go-version` library. -/
structure Version where
  segments : List Nat
  original : GoString
deriving DecidableEq, Repr

/-- An open connection handle (`sql.DB`), identified by a number.  A `*sql.DB` of the source is
an `Option DB`, the nil pointer being `none`. -/
structure DB where
  id : Nat
deriving DecidableEq, Repr

/-- What `rows.Scan` into one string variable does on a row: it assigns the value of the row to
the variable, or it reports an error and leaves the variable alone. -/
inductive ScanResult where
  | assigned (value : GoString)
  | failed (err : GoError)
deriving DecidableEq, Repr

/-- The result set of a query, one entry per row. -/
abbrev Rows := List ScanResult

/-- The collaborators the session layer calls: `sql.Open` of the standard library with the
registered driver, `(*sql.DB).Query` on an open handle, and `version.NewVersion`. -/
structure Transport where
  sqlOpen : GoString → GoString → Option DB × Option GoError
  dbQuery : DB → GoString → Except GoError Rows
  NewVersion : GoString → Except GoError Version

/-- A call made to the transport, in the order the calls are made. -/
inductive Event where
  | sqlOpen (driverName dataSourceName : GoString)
  | dbQuery (db : Option DB) (query : GoString)
  | rowsNext
  | rowsScan
deriving DecidableEq, Repr

/-- The result of `version.NewVersion` as a result of the caller. -/
def Result.ofExcept {α : Type} : Except GoError α → Result α
  | Except.ok a => Result.ok a
  | Except.error e => Result.error e

/-! ## The capability probe -/

/-- The text of the capability probe. -/
def probeQuery : GoString := str "SELECT CURRENT_VERSION()"

/-- The function `serverVersion`, with the transport calls it makes.  `db.Query` on a nil
handle dereferences the nil pointer.  The value `rows.Scan` returns is not looked at: after a
failed scan `versionString` still holds the empty string it was declared with. -/
def serverVersion (t : Transport) (db : Option DB) : Result Version × List Event :=
  match db with
  | none => (Result.panic, [Event.dbQuery none probeQuery])
  | some h =>
    match t.dbQuery h probeQuery with
    | Except.error err => (Result.error err, [Event.dbQuery (some h) probeQuery])
    | Except.ok rows =>
      match rows with
      | [] =>
        (Result.error
          (Errorf [FmtItem.lit (str "SELECT CURRENT_VERSION() returned an empty set")] []),
          [Event.dbQuery (some h) probeQuery, Event.rowsNext])
      | row :: _ =>
        let versionString : GoString :=
          match row with
          | ScanResult.assigned value => value
          | ScanResult.failed _ => []
        (Result.ofExcept (t.NewVersion versionString),
          [Event.dbQuery (some h) probeQuery, Event.rowsNext, Event.rowsScan])

/-! ## The configure step -/

/-- The resolved configuration handed to `providerConfigure`; `Get` is `d.Get(key).(string)`. -/
structure ResourceData where
  Get : GoString → GoString

/-- The configuration with one key set to a value. -/
def ResourceData.Set (d : ResourceData) (key value : GoString) : ResourceData :=
  { Get := fun k => if k = key then value else d.Get k }

/-- The struct `providerConfiguration`. -/
structure providerConfiguration where
  DB : Option DB
  ServerVersion : Version
  AccountType : GoString
deriving DecidableEq, Repr

/-- The name under which the driver is registered. -/
def driverName : GoString := str "snowflake"

/-- The local `dataSourceName` of `providerConfigure`: `Sprintf` of the format
`%s:%s@%s.%s` applied to user name, password, account and region. -/
def dataSourceName (d : ResourceData) : GoString :=
  let username := d.Get (str "username")
  let password := d.Get (str "password")
  let account := d.Get (str "account")
  let region := d.Get (str "region")
  Sprintf [FmtItem.verbS, FmtItem.lit (str ":"), FmtItem.verbS, FmtItem.lit (str "@"),
    FmtItem.verbS, FmtItem.lit (str "."), FmtItem.verbS] [username, password, account, region]

/-- The function `providerConfigure`, with the transport calls it makes.  The error `sql.Open`
returns is overwritten by the result of `serverVersion` before it is looked at. -/
def providerConfigure (t : Transport) (d : ResourceData) :
    Result providerConfiguration × List Event :=
  let accountType := d.Get (str "account_type")
  let opened := t.sqlOpen driverName (dataSourceName d)
  let db := opened.1
  let probed := serverVersion t db
  let events := Event.sqlOpen driverName (dataSourceName d) :: probed.2
  match probed.1 with
  | Result.error err => (Result.error err, events)
  | Result.panic => (Result.panic, events)
  | Result.ok ver =>
    (Result.ok { DB := db, ServerVersion := ver, AccountType := accountType }, events)

/-- The connection targets opened by a sequence of transport calls. -/
def openedTargets (events : List Event) : List GoString :=
  events.filterMap (fun e =>
    match e with
    | Event.sqlOpen _ dsn => some dsn
    | _ => none)

/-! ## The provider schema and its validation -/

/-- DefaultSnowFlakeRegion of the source. -/
def DefaultSnowFlakeRegion : GoString := str "us-west-2"

/-- DefaultAccountType of the source. -/
def DefaultAccountType : GoString := str "standard"

/-- One field of the provider schema; every field of the provider has type string.
`DefaultFunc` reads the process environment, `ValidateFunc` gets the value and the key and
returns warnings and errors. -/
structure Schema where
  Required : Bool
  Optional : Bool
  DefaultFunc : (GoString → GoString) → Option GoString
  ValidateFunc : Option (GoString → GoString → List GoString × List GoError)

/-- The helper `schema.EnvDefaultFunc`: the value of the environment variable when it is not
empty, otherwise the given default (`none` for nil). -/
def EnvDefaultFunc (k : GoString) (dv : Option GoString) :
    (GoString → GoString) → Option GoString :=
  fun getenv => if getenv k ≠ [] then some (getenv k) else dv

/-- The `Schema` map of `Provider()`, in the order of the source. -/
def ProviderSchema : List (GoString × Schema) :=
  [ (str "account",
      { Required := true, Optional := false
        DefaultFunc := EnvDefaultFunc (str "SF_ACCOUNT") none
        ValidateFunc := some (fun v _k =>
          let value := v
          if value = [] then
            ([], [Errorf [FmtItem.lit (str "Account must not be an empty string")] []])
          else ([], [])) }),
    (str "username",
      { Required := true, Optional := false
        DefaultFunc := EnvDefaultFunc (str "SF_USER") none
        ValidateFunc := some (fun v _k =>
          let value := v
          if value = [] then
            ([], [Errorf [FmtItem.lit (str "Username must not be an empty string")] []])
          else ([], [])) }),
    (str "password",
      { Required := true, Optional := false
        DefaultFunc := EnvDefaultFunc (str "SF_PASSWORD") none
        ValidateFunc := none }),
    (str "region",
      { Required := false, Optional := true
        DefaultFunc := EnvDefaultFunc (str "SF_REGION") (some DefaultSnowFlakeRegion)
        ValidateFunc := none }),
    (str "account_type",
      { Required := false, Optional := true
        DefaultFunc := EnvDefaultFunc (str "SF_ACCOUNT_TYPE") (some DefaultAccountType)
        ValidateFunc := none }) ]

/-- What the host framework starts from: the attributes written in the provider block and the
process environment. -/
structure ResourceConfig where
  config : GoString → Option GoString
  getenv : GoString → GoString

/-- The value of a field as the framework sees it: the configured one, else the dynamic
default. -/
def rawValue (c : ResourceConfig) (k : GoString) (s : Schema) : Option GoString :=
  match c.config k with
  | some v => some v
  | none => s.DefaultFunc c.getenv

/-- The validation of one field by the host framework: a required field must have a value, and
a field with a value is passed to its `ValidateFunc` when it has one. -/
def validateField (c : ResourceConfig) (k : GoString) (s : Schema) : List GoError :=
  match rawValue c k s with
  | none =>
    if s.Required then
      [Errorf [FmtItem.lit [34], FmtItem.verbS,
        FmtItem.lit (34 :: str ": required field is not set")] [k]]
    else []
  | some raw =>
    match s.ValidateFunc with
    | some f => (f raw k).2
    | none => []

/-- The errors of all fields of a schema. -/
def validate (schema : List (GoString × Schema)) (c : ResourceConfig) : List GoError :=
  schema.flatMap (fun ks => validateField c ks.1 ks.2)

/-- The resolved configuration the framework hands to the configure function: a field without
a value reads as the empty string. -/
def resourceData (schema : List (GoString × Schema)) (c : ResourceConfig) : ResourceData :=
  { Get := fun k =>
      match schema.lookup k with
      | some s => (rawValue c k s).getD []
      | none => [] }

/-- The outcome of the whole configure step. -/
inductive ConfigureResult where
  | rejected (errors : List GoError)
  | configured (r : Result providerConfiguration)
deriving DecidableEq, Repr

/-- The configure step of the provider: the schema is validated first, and `ConfigureFunc`,
which is `providerConfigure`, runs only on a configuration without validation errors. -/
def Configure (t : Transport) (c : ResourceConfig) : ConfigureResult × List Event :=
  match validate ProviderSchema c with
  | [] =>
    let r := providerConfigure t (resourceData ProviderSchema c)
    (ConfigureResult.configured r.1, r.2)
  | errs => (ConfigureResult.rejected errs, [])

/-! ## Sample collaborators for the examples -/

/-- Reads dot-separated decimal numbers; `cur` is the number being read. -/
def parseDotted (cur : Option Nat) : GoString → Option (List Nat)
  | [] => cur.map (fun n => [n])
  | b :: rest =>
    if b = 46 then
      match cur with
      | none => none
      | some n => (parseDotted none rest).map (fun ns => n :: ns)
    else if 48 ≤ b ∧ b ≤ 57 then parseDotted (some (cur.getD 0 * 10 + (b.toNat - 48))) rest
    else none

/-- A version parser for the examples: it accepts dot-separated decimal numbers and reports
every other text as malformed. -/
def dottedNewVersion (v : GoString) : Except GoError Version :=
  match parseDotted none v with
  | some segments => Except.ok { segments := segments, original := v }
  | none => Except.error (Errorf [FmtItem.lit (str "Malformed version: "), FmtItem.verbS] [v])

/-- A transport for the examples: `sql.Open` gives `opened`, the probe on any handle gives
`probe`, versions are dot-separated numbers. -/
def sampleTransport (opened : Option DB × Option GoError) (probe : Except GoError Rows) :
    Transport :=
  { sqlOpen := fun _ _ => opened
    dbQuery := fun _ _ => probe
    NewVersion := dottedNewVersion }

/-- A provider block for the examples, with the environment empty. -/
def sampleConfig (account username password : GoString) (accountType : Option GoString) :
    ResourceConfig :=
  { config := fun k =>
      if k = str "account" then some account
      else if k = str "username" then some username
      else if k = str "password" then some password
      else if k = str "account_type" then accountType
      else none
    getenv := fun _ => [] }

/-- A driver that is particular about what it is asked to open: `sql.Open` gives handle 1
without error when called with exactly this driver name and this target, and the nil handle
with an error on every other call; the probe on any handle gives `probe`. -/
def exactTransport (driver target : GoString) (probe : Except GoError Rows) : Transport :=
  { sqlOpen := fun drv dsn =>
      if drv = driver ∧ dsn = target then (some { id := 1 }, none)
      else (none, some { msg := str "unexpected connection target" })
    dbQuery := fun _ _ => probe
    NewVersion := dottedNewVersion }

/-! ## Identifier quoting: lemmas -/

theorem escapeSpec_nil : escapeSpec [] = [] := rfl

theorem escapeSpec_cons_backtick (s : GoString) :
    escapeSpec (backtick :: s) = backtick :: backtick :: escapeSpec s := by
  simp [escapeSpec, List.flatMap_cons]

theorem escapeSpec_cons_other (b : UInt8) (s : GoString) (hb : b ≠ backtick) :
    escapeSpec (b :: s) = b :: escapeSpec s := by
  simp [escapeSpec, List.flatMap_cons, hb]

/-- The copy loop appends the escaped input to the buffer. -/
theorem copyLoop_eq (s : GoString) :
    ∀ buf : GoString, identQuoteReplacer.copyLoop buf s = buf ++ escapeSpec s := by
  induction s with
  | nil => intro buf; simp [byteStringReplacer.copyLoop, escapeSpec]
  | cons b t ih =>
    intro buf
    have step : identQuoteReplacer.copyLoop buf (b :: t) =
        identQuoteReplacer.copyLoop
          (match identQuoteReplacer.replacements b with
            | some n => buf ++ n
            | none => buf ++ [b]) t := by
      simp [byteStringReplacer.copyLoop]
    rw [step, ih]
    by_cases hb : b = backtick
    · subst hb
      simp [identQuoteReplacer, escapeSpec_cons_backtick]
    · simp [identQuoteReplacer, escapeSpec_cons_other b t hb, hb]

/-- An input in which no byte has a replacement is its own escaping. -/
theorem escapeSpec_of_no_change (s : GoString)
    (h : s.any (fun b => (identQuoteReplacer.replacements b).isSome) = false) :
    escapeSpec s = s := by
  induction s with
  | nil => rfl
  | cons b t ih =>
    simp only [List.any_cons, Bool.or_eq_false_iff] at h
    have hb : b ≠ backtick := by
      intro hb
      have := h.1
      simp [identQuoteReplacer, hb] at this
    rw [escapeSpec_cons_other b t hb, ih h.2]

/-- The replacer of the source computes the escaping of the specification. -/
theorem Replace_eq (s : GoString) : identQuoteReplacer.Replace s = escapeSpec s := by
  unfold byteStringReplacer.Replace
  by_cases h : s.any (fun b => (identQuoteReplacer.replacements b).isSome) = true
  · simp [h, copyLoop_eq]
  · have h' : s.any (fun b => (identQuoteReplacer.replacements b).isSome) = false := by
      simpa using h
    simp only [h', Bool.not_false, if_true]
    exact (escapeSpec_of_no_change s h').symm

/-- The shape of a quoted identifier. -/
theorem quoteIdentifier_eq (s : GoString) :
    quoteIdentifier s = backtick :: (escapeSpec s ++ [backtick]) := by
  simp [quoteIdentifier, Sprintf, Replace_eq]

theorem undouble_cons_other (a : UInt8) (l : GoString) (ha : a ≠ backtick) :
    undouble (a :: l) = a :: undouble l := by
  cases l with
  | nil => simp [undouble]
  | cons b r => simp [undouble, ha]

/-- Replacing doubled delimiters undoes the escaping. -/
theorem undouble_escapeSpec (s : GoString) : undouble (escapeSpec s) = s := by
  induction s with
  | nil => simp [escapeSpec, undouble]
  | cons b t ih =>
    by_cases hb : b = backtick
    · subst hb
      rw [escapeSpec_cons_backtick]
      simp [undouble, ih]
    · rw [escapeSpec_cons_other b t hb, undouble_cons_other b _ hb, ih]

/-- In an escaped text every maximal run of delimiters has even length. -/
theorem escapeSpec_runs_even (s : GoString) :
    ∀ pre run post : GoString, escapeSpec s = pre ++ run ++ post →
      (∀ b ∈ run, b = backtick) → pre.getLast? ≠ some backtick →
      post.head? ≠ some backtick → Even run.length := by
  induction s with
  | nil =>
    intro pre run post h _ _ _
    have h' : pre ++ run ++ post = [] := by simpa [escapeSpec] using h.symm
    have hrun : run = [] := by
      simp only [List.append_eq_nil] at h'
      exact h'.1.2
    simp [hrun]
  | cons c t ih =>
    intro pre run post h hrun hpre hpost
    by_cases hc : c = backtick
    · subst hc
      rw [escapeSpec_cons_backtick] at h
      match pre, hpre, h with
      | [], _, h =>
        match run, hrun, h with
        | [], _, _ => simp
        | [_], _, h =>
          simp only [List.nil_append, List.singleton_append, List.cons.injEq] at h
          exact absurd (by rw [← h.2]; rfl) hpost
        | _ :: _ :: run', hrun, h =>
          simp only [List.nil_append, List.cons_append, List.cons.injEq] at h
          have ih' := ih [] run' post (by simpa using h.2.2)
            (fun b hb => hrun b (by simp [hb])) (by simp) hpost
          simpa [Nat.even_add_one, Nat.succ_eq_add_one] using ih'
      | [p], hpre, h =>
        simp only [List.cons_append, List.nil_append, List.cons.injEq] at h
        exact absurd (by rw [← h.1]; rfl) hpre
      | p :: q :: pre', hpre, h =>
        simp only [List.cons_append, List.cons.injEq] at h
        match pre', hpre, h with
        | [], hpre, h => exact absurd (by rw [← h.2.1]; rfl) hpre
        | r :: tl, hpre, h =>
          exact ih (r :: tl) run post (by simpa using h.2.2) hrun
            (by simpa [List.getLast?_cons_cons] using hpre) hpost
    · rw [escapeSpec_cons_other c t hc] at h
      match pre, hpre, h with
      | [], _, h =>
        match run, hrun, h with
        | [], _, _ => simp
        | a :: _, hrun, h =>
          simp only [List.nil_append, List.cons_append, List.cons.injEq] at h
          exact absurd (by rw [h.1]; exact hrun a (by simp)) hc
      | [p], _, h =>
        simp only [List.cons_append, List.nil_append, List.cons.injEq] at h
        exact ih [] run post (by simpa using h.2) hrun (by simp) hpost
      | p :: r :: pre', hpre, h =>
        simp only [List.cons_append, List.cons.injEq] at h
        exact ih (r :: pre') run post (by simpa using h.2) hrun
          (by simpa [List.getLast?_cons_cons] using hpre) hpost

/-! ## Identifier quoting: the claims -/

/-- C1: for every raw identifier, unquoting the quoted identifier (strip the leading and the
trailing delimiter, replace each doubled delimiter by one) gives the identifier back, and
quoting is injective. -/
theorem quoteIdentifier_roundtrip :
    (∀ s : GoString, unquote (quoteIdentifier s) = some s) ∧
      Function.Injective quoteIdentifier := by
  have round : ∀ s : GoString, unquote (quoteIdentifier s) = some s := by
    intro s
    rw [quoteIdentifier_eq]
    simp [unquote, undouble_escapeSpec]
  refine ⟨round, ?_⟩
  intro a b hab
  have h := congrArg unquote hab
  rw [round a, round b] at h
  exact Option.some.inj h

/-- C2: for every input, the quoted identifier is a delimiter, then the input with every
delimiter replaced by two delimiters and every other byte kept in place, then a delimiter; the
empty input gives exactly two delimiters. -/
theorem quoteIdentifier_spec :
    (∀ s : GoString,
      quoteIdentifier s =
        [backtick] ++ s.flatMap (fun b => if b = backtick then [backtick, backtick] else [b])
          ++ [backtick]) ∧
      quoteIdentifier [] = [backtick, backtick] := by
  constructor
  · intro s
    rw [quoteIdentifier_eq]
    simp [escapeSpec]
  · rw [quoteIdentifier_eq]
    simp [escapeSpec]

/-- C3: for every input, the quoted identifier begins and ends with a delimiter, and in the
text strictly between these two every maximal run of delimiters has even length. -/
theorem quoteIdentifier_runs_even (s : GoString) :
    ∃ inner : GoString, quoteIdentifier s = [backtick] ++ inner ++ [backtick] ∧
      ∀ pre run post : GoString, inner = pre ++ run ++ post →
        (∀ b ∈ run, b = backtick) → pre.getLast? ≠ some backtick →
        post.head? ≠ some backtick → Even run.length := by
  refine ⟨escapeSpec s, ?_, escapeSpec_runs_even s⟩
  rw [quoteIdentifier_eq]
  simp

/-- The run property at the identifier `a`, delimiter, `b`: the text between the outer
delimiters is `a`, two delimiters, `b`, and its one run of delimiters has length two. -/
theorem quoteIdentifier_runs_even_witness :
    quoteIdentifier [97, backtick, 98] =
        [backtick] ++ ([97] ++ [backtick, backtick] ++ [98]) ++ [backtick] ∧
      Even ([backtick, backtick] : GoString).length := by
  have hq : quoteIdentifier [97, backtick, 98] =
      [backtick] ++ ([97] ++ [backtick, backtick] ++ [98]) ++ [backtick] := by decide
  refine ⟨hq, ?_⟩
  obtain ⟨inner, hinner, hruns⟩ := quoteIdentifier_runs_even [97, backtick, 98]
  have hsplit : inner = [97] ++ [backtick, backtick] ++ [98] := by
    rw [hq] at hinner
    have h := List.append_cancel_left (List.append_cancel_right hinner)
    exact h.symm
  exact hruns [97] [backtick, backtick] [98] hsplit (by simp) (by decide) (by decide)

/-! ## The session layer: lemmas -/

/-- The message of the error for an empty result set. -/
theorem Errorf_lit (text : GoString) : Errorf [FmtItem.lit text] [] = { msg := text } := by
  simp [Errorf, Sprintf]

/-- The transport calls of `providerConfigure`: the open, then those of the probe. -/
theorem providerConfigure_events (t : Transport) (d : ResourceData) :
    (providerConfigure t d).2 =
      Event.sqlOpen driverName (dataSourceName d) ::
        (serverVersion t (t.sqlOpen driverName (dataSourceName d)).1).2 := by
  simp only [providerConfigure]
  split <;> rfl

/-- The result of `providerConfigure` in terms of the result of the probe. -/
theorem providerConfigure_result (t : Transport) (d : ResourceData) :
    (providerConfigure t d).1 =
      match (serverVersion t (t.sqlOpen driverName (dataSourceName d)).1).1 with
      | Result.error err => Result.error err
      | Result.panic => Result.panic
      | Result.ok ver =>
        Result.ok { DB := (t.sqlOpen driverName (dataSourceName d)).1, ServerVersion := ver,
                    AccountType := d.Get (str "account_type") } := by
  simp only [providerConfigure]
  cases hp : (serverVersion t (t.sqlOpen driverName (dataSourceName d)).1).1 <;> rfl

/-- The probe opens no connection. -/
theorem openedTargets_serverVersion (t : Transport) (db : Option DB) :
    openedTargets (serverVersion t db).2 = [] := by
  cases db with
  | none => rfl
  | some h =>
    cases hq : t.dbQuery h probeQuery with
    | error err => simp [serverVersion, hq, openedTargets]
    | ok rows =>
      cases rows with
      | nil => simp [serverVersion, hq, openedTargets]
      | cons row rest => simp [serverVersion, hq, openedTargets]

/-- The connection target is the concatenation of user name, colon, password, at-sign, account,
dot and region. -/
theorem dataSourceName_eq (d : ResourceData) :
    dataSourceName d =
      d.Get (str "username") ++ str ":" ++ d.Get (str "password") ++ str "@" ++
        d.Get (str "account") ++ str "." ++ d.Get (str "region") := by
  simp [dataSourceName, Sprintf]

/-- Setting the account type leaves the connection target alone. -/
theorem dataSourceName_Set_account_type (d : ResourceData) (x : GoString) :
    dataSourceName (d.Set (str "account_type") x) = dataSourceName d := by
  have h1 : str "username" ≠ str "account_type" := by decide
  have h2 : str "password" ≠ str "account_type" := by decide
  have h3 : str "account" ≠ str "account_type" := by decide
  have h4 : str "region" ≠ str "account_type" := by decide
  simp [dataSourceName, ResourceData.Set, h1, h2, h3, h4]

/-- After a failed scan the probe returns what `NewVersion` makes of the empty string, whatever
the error of the scan was. -/
theorem serverVersion_scan_failed (t : Transport) (db : DB) (e : GoError) (rest : Rows)
    (hrows : t.dbQuery db probeQuery = Except.ok (ScanResult.failed e :: rest)) :
    (serverVersion t (some db)).1 = Result.ofExcept (t.NewVersion []) := by
  simp [serverVersion, hrows]

/-- An error of the probe query is returned as it is. -/
theorem serverVersion_query_error (t : Transport) (db : DB) (e : GoError)
    (hq : t.dbQuery db probeQuery = Except.error e) :
    (serverVersion t (some db)).1 = Result.error e := by
  simp [serverVersion, hq]

/-- The result of `providerConfigure` does not depend on the error `sql.Open` returned. -/
theorem providerConfigure_open_error_unused (t : Transport) (d : ResourceData) :
    providerConfigure
        { t with sqlOpen := fun driver dsn => ((t.sqlOpen driver dsn).1, none) } d =
      providerConfigure t d := by
  rfl

/-- An empty account is rejected by its validator before any transport call. -/
theorem Configure_empty_account (t : Transport) (c : ResourceConfig)
    (h : c.config (str "account") = some []) :
    ∃ errs, Configure t c = (ConfigureResult.rejected errs, []) ∧
      { msg := str "Account must not be an empty string" } ∈ errs := by
  have hv : ∃ rest, validate ProviderSchema c =
      { msg := str "Account must not be an empty string" } :: rest := by
    simp [validate, ProviderSchema, validateField, rawValue, h, Errorf_lit]
  obtain ⟨rest, hrest⟩ := hv
  refine ⟨_, ?_, List.mem_cons_self _ rest⟩
  simp [Configure, hrest]

/-- An empty user name is rejected by its validator before any transport call. -/
theorem Configure_empty_username (t : Transport) (c : ResourceConfig)
    (h : c.config (str "username") = some []) :
    ∃ errs, Configure t c = (ConfigureResult.rejected errs, []) ∧
      { msg := str "Username must not be an empty string" } ∈ errs := by
  have hv : { msg := str "Username must not be an empty string" } ∈
      validate ProviderSchema c := by
    simp [validate, ProviderSchema, validateField, rawValue, h, Errorf_lit]
  cases hc : validate ProviderSchema c with
  | nil => rw [hc] at hv; cases hv
  | cons e rest =>
    refine ⟨e :: rest, ?_, hc ▸ hv⟩
    simp [Configure, hc]

/-! ## The session layer: the claims -/

/-- C5: for a handle whose probe returns zero rows, `serverVersion` returns the error for the
empty set and no version, and `providerConfigure`, having opened that handle, returns the same
error and no configuration. -/
theorem serverVersion_empty_set (t : Transport) (d : ResourceData) (db : DB)
    (hrows : t.dbQuery db probeQuery = Except.ok []) :
    (serverVersion t (some db)).1 =
        Result.error { msg := str "SELECT CURRENT_VERSION() returned an empty set" } ∧
      ((t.sqlOpen driverName (dataSourceName d)).1 = some db →
        (providerConfigure t d).1 =
          Result.error { msg := str "SELECT CURRENT_VERSION() returned an empty set" }) := by
  have hs : (serverVersion t (some db)).1 =
      Result.error { msg := str "SELECT CURRENT_VERSION() returned an empty set" } := by
    simp [serverVersion, hrows, Errorf_lit]
  refine ⟨hs, ?_⟩
  intro hopen
  rw [providerConfigure_result, hopen, hs]

/-- The empty result set at a sample transport: the handle opens without error and the probe
returns zero rows. -/
theorem serverVersion_empty_set_witness :
    (serverVersion (sampleTransport (some { id := 1 }, none) (Except.ok [])) (some { id := 1 })).1 =
        Result.error { msg := str "SELECT CURRENT_VERSION() returned an empty set" } ∧
      (providerConfigure (sampleTransport (some { id := 1 }, none) (Except.ok []))
          (resourceData ProviderSchema
            (sampleConfig (str "acct") (str "user") (str "secret") none))).1 =
        Result.error { msg := str "SELECT CURRENT_VERSION() returned an empty set" } :=
  have h := serverVersion_empty_set (sampleTransport (some { id := 1 }, none) (Except.ok []))
    (resourceData ProviderSchema (sampleConfig (str "acct") (str "user") (str "secret") none))
    { id := 1 } rfl
  ⟨h.1, h.2 rfl⟩

/-- C6: for an opened handle whose probe returns a row holding the string `v`,
`providerConfigure` succeeds exactly when `NewVersion` parses `v`; the configuration then holds
the handle, the parse of `v` as its server version and the configured account type; when `v`
does not parse, the error of the parser is returned and no configuration. -/
theorem providerConfigure_server_version (t : Transport) (d : ResourceData) (db : DB)
    (v : GoString) (rest : Rows)
    (hopen : (t.sqlOpen driverName (dataSourceName d)).1 = some db)
    (hrows : t.dbQuery db probeQuery = Except.ok (ScanResult.assigned v :: rest)) :
    (∀ ver, t.NewVersion v = Except.ok ver →
        (providerConfigure t d).1 =
          Result.ok { DB := some db, ServerVersion := ver,
                      AccountType := d.Get (str "account_type") }) ∧
      (∀ e, t.NewVersion v = Except.error e → (providerConfigure t d).1 = Result.error e) ∧
      ((∃ cfg, (providerConfigure t d).1 = Result.ok cfg) ↔ ∃ ver, t.NewVersion v = Except.ok ver)
    := by
  have hs : (serverVersion t (some db)).1 = Result.ofExcept (t.NewVersion v) := by
    simp [serverVersion, hrows]
  have hr := providerConfigure_result t d
  rw [hopen, hs] at hr
  cases hv : t.NewVersion v with
  | ok ver =>
    rw [hv] at hr
    refine ⟨?_, ?_, ?_⟩
    · intro ver' h
      cases h
      exact hr
    · intro e h
      cases h
    · exact ⟨fun _ => ⟨ver, rfl⟩, fun _ => ⟨_, hr⟩⟩
  | error e =>
    rw [hv] at hr
    have hr' : (providerConfigure t d).1 = Result.error e := hr
    refine ⟨?_, ?_, ?_⟩
    · intro ver h
      cases h
    · intro e' h
      cases h
      exact hr'
    · constructor
      · rintro ⟨cfg, hcfg⟩
        rw [hr'] at hcfg
        cases hcfg
      · rintro ⟨ver, hver⟩
        cases hver

/-- The version of the configuration at a sample transport whose probe returns the row
`3.26.1`. -/
theorem providerConfigure_server_version_witness :
    (providerConfigure
        (sampleTransport (some { id := 1 }, none)
          (Except.ok [ScanResult.assigned (str "3.26.1")]))
        (resourceData ProviderSchema
          (sampleConfig (str "acct") (str "user") (str "secret") none))).1 =
      Result.ok { DB := some { id := 1 },
                  ServerVersion := { segments := [3, 26, 1], original := str "3.26.1" },
                  AccountType := str "standard" } :=
  (providerConfigure_server_version
    (sampleTransport (some { id := 1 }, none) (Except.ok [ScanResult.assigned (str "3.26.1")]))
    (resourceData ProviderSchema (sampleConfig (str "acct") (str "user") (str "secret") none))
    { id := 1 } (str "3.26.1") [] rfl rfl).1
    { segments := [3, 26, 1], original := str "3.26.1" } rfl

/-- A driver that opens only the target of the source behaves, under `providerConfigure`, as
one that opens everything. -/
theorem providerConfigure_exactTransport (d : ResourceData) (probe : Except GoError Rows) :
    providerConfigure (exactTransport (str "snowflake") (dataSourceName d) probe) d =
      providerConfigure (sampleTransport (some { id := 1 }, none) probe) d := by
  have hopen : (exactTransport (str "snowflake") (dataSourceName d) probe).sqlOpen driverName
      (dataSourceName d) = (some { id := 1 }, none) := by
    simp [exactTransport, driverName]
  simp only [providerConfigure, hopen]
  rfl

/-- C10: the connection target `providerConfigure` hands to `sql.Open` is user name, colon,
password, at-sign, account, dot, region, in this order.  For every transport the result is
decided by the answer of `sql.Open` to the driver name `snowflake` and this target, the
recorded calls start with this one open and hold no other, a driver that refuses every other
target is served, and setting the account type to any value changes neither the calls nor the
handle that is used. -/
theorem providerConfigure_dataSourceName (t : Transport) (d : ResourceData) :
    ∃ target : GoString,
      target = d.Get (str "username") ++ str ":" ++ d.Get (str "password") ++ str "@" ++
        d.Get (str "account") ++ str "." ++ d.Get (str "region") ∧
      (providerConfigure t d).1 =
        (match (serverVersion t (t.sqlOpen (str "snowflake") target).1).1 with
          | Result.error err => Result.error err
          | Result.panic => Result.panic
          | Result.ok ver =>
            Result.ok { DB := (t.sqlOpen (str "snowflake") target).1, ServerVersion := ver,
                        AccountType := d.Get (str "account_type") }) ∧
      (providerConfigure t d).2 =
        Event.sqlOpen (str "snowflake") target ::
          (serverVersion t (t.sqlOpen (str "snowflake") target).1).2 ∧
      openedTargets (providerConfigure t d).2 = [target] ∧
      (∀ probe : Except GoError Rows,
        providerConfigure (exactTransport (str "snowflake") target probe) d =
          providerConfigure (sampleTransport (some { id := 1 }, none) probe) d) ∧
      ∀ x : GoString,
        (providerConfigure t (d.Set (str "account_type") x)).2 = (providerConfigure t d).2 ∧
        (providerConfigure t (d.Set (str "account_type") x)).1 =
          (match (serverVersion t (t.sqlOpen (str "snowflake") target).1).1 with
            | Result.error err => Result.error err
            | Result.panic => Result.panic
            | Result.ok ver =>
              Result.ok { DB := (t.sqlOpen (str "snowflake") target).1, ServerVersion := ver,
                          AccountType := x }) := by
  refine ⟨dataSourceName d, dataSourceName_eq d, ?_, ?_, ?_, ?_, ?_⟩
  · exact providerConfigure_result t d
  · exact providerConfigure_events t d
  · rw [providerConfigure_events]
    have h := openedTargets_serverVersion t (t.sqlOpen driverName (dataSourceName d)).1
    simp only [openedTargets, List.filterMap_cons] at h ⊢
    rw [h]
  · exact providerConfigure_exactTransport d
  · intro x
    have hget : (d.Set (str "account_type") x).Get (str "account_type") = x := by
      simp [ResourceData.Set]
    refine ⟨?_, ?_⟩
    · rw [providerConfigure_events, providerConfigure_events, dataSourceName_Set_account_type]
    · have h := providerConfigure_result t (d.Set (str "account_type") x)
      rw [dataSourceName_Set_account_type, hget] at h
      exact h

/-- C4, at a provider block with an empty password: the account and the user name are not
empty, the password is the empty string, the service answers the probe with `3.26.1`; no
validator rejects the block, the connection is opened with the empty password and the
configure step succeeds. -/
theorem Configure_empty_password_accepted :
    validate ProviderSchema (sampleConfig (str "acct") (str "user") [] none) = [] ∧
      Configure
          (sampleTransport (some { id := 1 }, none)
            (Except.ok [ScanResult.assigned (str "3.26.1")]))
          (sampleConfig (str "acct") (str "user") [] none) =
        (ConfigureResult.configured
          (Result.ok { DB := some { id := 1 },
                       ServerVersion := { segments := [3, 26, 1], original := str "3.26.1" },
                       AccountType := str "standard" }),
         [Event.sqlOpen (str "snowflake") (str "user:@acct.us-west-2"),
          Event.dbQuery (some { id := 1 }) (str "SELECT CURRENT_VERSION()"),
          Event.rowsNext, Event.rowsScan]) := by
  decide

/-- C7, at an open that reports an error: with the nil handle `sql.Open` returns beside its
error the probe dereferences nil and `providerConfigure` panics; with a usable handle beside
the error `providerConfigure` succeeds.  In neither case is the error of the open returned. -/
theorem providerConfigure_open_error_dropped :
    (providerConfigure
        (sampleTransport (none, some { msg := str "open failed" })
          (Except.ok [ScanResult.assigned (str "3.26.1")]))
        (resourceData ProviderSchema
          (sampleConfig (str "acct") (str "user") (str "secret") none))).1 = Result.panic ∧
      (providerConfigure
        (sampleTransport (some { id := 1 }, some { msg := str "open failed" })
          (Except.ok [ScanResult.assigned (str "3.26.1")]))
        (resourceData ProviderSchema
          (sampleConfig (str "acct") (str "user") (str "secret") none))).1 =
        Result.ok { DB := some { id := 1 },
                    ServerVersion := { segments := [3, 26, 1], original := str "3.26.1" },
                    AccountType := str "standard" } := by
  decide

/-- C8, at a row whose scan reports an error: `serverVersion` and `providerConfigure` fail with
the parser's error for the empty string, which is not the error of the scan. -/
theorem serverVersion_scan_error_replaced :
    (serverVersion
        (sampleTransport (some { id := 1 }, none)
          (Except.ok [ScanResult.failed { msg := str "sql: Scan error on column index 0" }]))
        (some { id := 1 })).1 = Result.error { msg := str "Malformed version: " } ∧
      (providerConfigure
        (sampleTransport (some { id := 1 }, none)
          (Except.ok [ScanResult.failed { msg := str "sql: Scan error on column index 0" }]))
        (resourceData ProviderSchema
          (sampleConfig (str "acct") (str "user") (str "secret") none))).1 =
        Result.error { msg := str "Malformed version: " } ∧
      ({ msg := str "Malformed version: " } : GoError) ≠
        { msg := str "sql: Scan error on column index 0" } := by
  decide

/-- C9, at a provider block with the account type `premium`: the configure step succeeds and
the account type of the configuration is `premium`, neither `standard` nor `enterprise`. -/
theorem Configure_account_type_unchecked :
    (Configure
        (sampleTransport (some { id := 1 }, none)
          (Except.ok [ScanResult.assigned (str "3.26.1")]))
        (sampleConfig (str "acct") (str "user") (str "secret") (some (str "premium")))).1 =
      ConfigureResult.configured
        (Result.ok { DB := some { id := 1 },
                     ServerVersion := { segments := [3, 26, 1], original := str "3.26.1" },
                     AccountType := str "premium" }) ∧
      str "premium" ≠ str "standard" ∧ str "premium" ≠ str "enterprise" := by
  decide

end Snowflake
